import Mathlib

/-!
# FGAISwiftAircraft

A shallow embedding of `src/AIModel/AISwiftAircraft.cpp`: the adapter that shows an
aircraft driven by the swift network client as an AI object of the simulator.

* C++ strings are lists of characters; `find` and `substr` follow the C++ standard
  library (`std::basic_string::find`, `std::basic_string::substr`).
* A `double` is carried as its IEEE-754 binary64 bit pattern. The adapter performs no
  floating-point arithmetic, it only moves values around and produces one NaN.
* Methods are state passing: a method takes the object and returns the object after
  the call. An exception is the `error` case of `Except`.
* The scenery probe `FGAIBase::getGroundElevationM` is a collaborator outside this
  file, so it is a parameter of `getGroundElevation`.
* The method `update(dt)` only delegates to `FGAIBase::update` and `Transform`, both
  outside this file, and is not embedded.
-/

namespace AISwift

/-! ## Strings -/

/-- A `std::string`: the sequence of its characters. -/
abbrev CppString := List Char

/-- The result of `std::string::find`: a position, or `npos` (carried as `none`). -/
abbrev size_type := Option Nat

/-- The constant `std::string::npos`, the largest `size_t`; it exceeds the size of
every string. -/
def npos : size_type := none

/-- Exceptions of the C++ standard library raised by the operations used here. -/
inductive CppException where
  | out_of_range
deriving DecidableEq

deriving instance DecidableEq for Except

/-- The call `s.find(str)`: the lowest position at which `str` occurs in `s`, or `npos` when it
does not occur. -/
def find (s str : CppString) : size_type :=
  if str.isPrefixOf s then some 0
  else
    match s with
    | [] => npos
    | _ :: t => (find t str).map (· + 1)

/-- The call `s.substr(pos)`: the characters of `s` from position `pos` to the end; throws
`std::out_of_range` when `pos > s.size()`, which is always the case for `npos`. -/
def substr (s : CppString) (pos : size_type) : Except CppException CppString :=
  match pos with
  | none => Except.error CppException.out_of_range
  | some p =>
    if p > s.length then Except.error CppException.out_of_range
    else Except.ok (s.drop p)

/-- The string literal `"/Aircraft/"` of the constructor. -/
def marker : CppString := "/Aircraft/".toList

/-! ## Doubles -/

/-- A C++ `double`, as its IEEE-754 binary64 bit pattern (sign, 11 exponent bits,
52 fraction bits). -/
structure Double where
  bits : Nat
deriving DecidableEq

namespace Double

/-- The biased exponent field. -/
def exponent (d : Double) : Nat := (d.bits / 2 ^ 52) % 2 ^ 11

/-- The fraction field. -/
def fraction (d : Double) : Nat := d.bits % 2 ^ 52

/-- The test `std::isnan`: all exponent bits set and a non-zero fraction. -/
def isNaN (d : Double) : Bool := d.exponent == 2047 && d.fraction != 0

/-- Number of binary digits of `n`, by halving at most `fuel` times. -/
def bitLength : Nat → Nat → Nat
  | 0, _ => 0
  | fuel + 1, n => if n = 0 then 0 else bitLength fuel (n / 2) + 1

/-- The conversion of a non-negative integer literal to `double`; exact below `2 ^ 53`,
which covers the literals `0` and `30000` of the source. -/
def ofNat (n : Nat) : Double :=
  if n = 0 then ⟨0⟩
  else
    let e := bitLength 64 n - 1
    ⟨(e + 1023) * 2 ^ 52 + (n * 2 ^ (52 - e) - 2 ^ 52)⟩

end Double

/-- The value `std::numeric_limits<double>::quiet_NaN()`: exponent all ones, top
fraction bit set. -/
def quiet_NaN : Double := ⟨0x7FF8000000000000⟩

/-! ## SimGear value carriers -/

/-- SimGear's `SGVec3<double>`, read through `x()`, `y()`, `z()`. -/
structure SGVec3 where
  x : Double
  y : Double
  z : Double
deriving DecidableEq

/-- SimGear's geodetic point `SGGeod`. The adapter only exchanges values with it
through the degree and feet accessors and never reads back what it has set, so the
point is carried as the three quantities in the units of those accessors. -/
structure SGGeod where
  latitudeDeg : Double
  longitudeDeg : Double
  elevationFt : Double
deriving DecidableEq

namespace SGGeod

/-- The default constructor `SGGeod()`: longitude, latitude and elevation zero. -/
def default : SGGeod := ⟨Double.ofNat 0, Double.ofNat 0, Double.ofNat 0⟩

def getLatitudeDeg (p : SGGeod) : Double := p.latitudeDeg

def getLongitudeDeg (p : SGGeod) : Double := p.longitudeDeg

def getElevationFt (p : SGGeod) : Double := p.elevationFt

def setLatitudeDeg (p : SGGeod) (lat : Double) : SGGeod := { p with latitudeDeg := lat }

def setLongitudeDeg (p : SGGeod) (lon : Double) : SGGeod := { p with longitudeDeg := lon }

def setElevationFt (p : SGGeod) (elevation : Double) : SGGeod :=
  { p with elevationFt := elevation }

end SGGeod

/-! ## The base class -/

/-- Modelled from the spec: the enumeration `ModelSearchOrder` of the base class, whose
header is not among the sources. The source names `PREFER_AI`, "a flag telling the
host's asset resolver to favor this entity's explicit model path over its own default
lookup rules"; the other two values stand for the resolver's default orders. -/
inductive ModelSearchOrder where
  | DATA_ONLY
  | PREFER_AI
  | PREFER_DATA
deriving DecidableEq

/-- Modelled from the spec: the state of the base class `FGAIBase` that the adapter
touches; the base class itself is not among the sources. The spec lists a callsign, a
model path, a search-order preference and the pose fields latitude, longitude,
altitude, pitch, bank, heading and groundspeed. -/
structure FGAIBase where
  model_path : CppString
  callsign : CppString
  _searchOrder : ModelSearchOrder
  latitude : Double
  longitude : Double
  altitude : Double
  pitch : Double
  bank : Double
  heading : Double
  speed : Double
deriving DecidableEq

namespace FGAIBase

/-- Modelled from the spec: `FGAIBase::setCallSign`, missing from the sources; it
"sets the callsign". -/
def setCallSign (b : FGAIBase) (s : CppString) : FGAIBase := { b with callsign := s }

/-- Modelled from the spec: `FGAIBase::_setLatitude`, missing from the sources; the
update is "a pure field transfer". -/
def _setLatitude (b : FGAIBase) (v : Double) : FGAIBase := { b with latitude := v }

/-- Modelled from the spec: `FGAIBase::_setLongitude`, missing from the sources; the
update is "a pure field transfer". -/
def _setLongitude (b : FGAIBase) (v : Double) : FGAIBase := { b with longitude := v }

/-- Modelled from the spec: `FGAIBase::_setAltitude`, missing from the sources; the
update is "a pure field transfer". -/
def _setAltitude (b : FGAIBase) (v : Double) : FGAIBase := { b with altitude := v }

/-- Modelled from the spec: `FGAIBase::setPitch`, missing from the sources; the update
is "a pure field transfer". -/
def setPitch (b : FGAIBase) (v : Double) : FGAIBase := { b with pitch := v }

/-- Modelled from the spec: `FGAIBase::setBank`, missing from the sources; the update
is "a pure field transfer". -/
def setBank (b : FGAIBase) (v : Double) : FGAIBase := { b with bank := v }

/-- Modelled from the spec: `FGAIBase::setHeading`, missing from the sources; the
update is "a pure field transfer". -/
def setHeading (b : FGAIBase) (v : Double) : FGAIBase := { b with heading := v }

/-- Modelled from the spec: `FGAIBase::setSpeed`, missing from the sources; the update
is "a pure field transfer". -/
def setSpeed (b : FGAIBase) (v : Double) : FGAIBase := { b with speed := v }

end FGAIBase

/-- The scenery probe `FGAIBase::getGroundElevationM(pos, elev, material)`, a `const`
method of the base class that reaches into the scenery: given the base object, the
request point and the value `elev` holds on entry, it yields its `bool` result and the
value `elev` holds on return. -/
abbrev ElevationProbe := FGAIBase → SGGeod → Double → Bool × Double

/-! ## The adapter -/

/-- The class `FGAISwiftAircraft`: the base object and the flag `m_initPos`. -/
structure FGAISwiftAircraft extends FGAIBase where
  m_initPos : Bool
deriving DecidableEq

/-- Modelled from the spec: the value `m_initPos` has after construction. The member
is declared in `AISwiftAircraft.h`, which is not among the sources, and the constructor
body does not assign it; the spec says that "before any call to the pose-update
operation" no pose has been received. -/
def m_initPos_initial : Bool := false

namespace FGAISwiftAircraft

/-- The constructor `FGAISwiftAircraft(callsign, modelString)`, lines 24-29. `base` is
the object as the base-class constructor `FGAIBase(otStatic, false)` leaves it. -/
def ctor (base : FGAIBase) (callsign modelString : CppString) :
    Except CppException FGAISwiftAircraft :=
  match substr modelString (find modelString marker) with
  | Except.error ex => Except.error ex
  | Except.ok tail =>
    let self : FGAISwiftAircraft := { toFGAIBase := base, m_initPos := m_initPos_initial }
    let self := { self with model_path := self.model_path ++ tail }
    let self := { self with toFGAIBase := self.toFGAIBase.setCallSign callsign }
    let self := { self with _searchOrder := ModelSearchOrder.PREFER_AI }
    Except.ok self

/-- The method `updatePosition(position, orientation, groundspeed, initPos)`,
lines 30-41. -/
def updatePosition (self : FGAISwiftAircraft) (position : SGGeod) (orientation : SGVec3)
    (groundspeed : Double) (initPos : Bool) : FGAISwiftAircraft :=
  let self := { self with m_initPos := initPos }
  let self := { self with toFGAIBase := self.toFGAIBase._setLatitude position.getLatitudeDeg }
  let self := { self with toFGAIBase := self.toFGAIBase._setLongitude position.getLongitudeDeg }
  let self := { self with toFGAIBase := self.toFGAIBase._setAltitude position.getElevationFt }
  let self := { self with toFGAIBase := self.toFGAIBase.setPitch orientation.x }
  let self := { self with toFGAIBase := self.toFGAIBase.setBank orientation.y }
  let self := { self with toFGAIBase := self.toFGAIBase.setHeading orientation.z }
  let self := { self with toFGAIBase := self.toFGAIBase.setSpeed groundspeed }
  self

/-- What a call of `getGroundElevation` leaves behind: the returned value, the object
and the argument after the call, and the requests made to the scenery probe. -/
structure GroundElevationCall where
  ret : Double
  self : FGAISwiftAircraft
  pos : SGGeod
  probed : List SGGeod
deriving DecidableEq

/-- The method `getGroundElevation(pos)`, lines 48-59. -/
def getGroundElevation (getGroundElevationM : ElevationProbe) (self : FGAISwiftAircraft)
    (pos : SGGeod) : GroundElevationCall :=
  if !self.m_initPos then
    { ret := quiet_NaN, self := self, pos := pos, probed := [] }
  else
    let alt := Double.ofNat 0
    let posReq := SGGeod.default
    let posReq := posReq.setElevationFt (Double.ofNat 30000)
    let posReq := posReq.setLatitudeDeg pos.getLatitudeDeg
    let posReq := posReq.setLongitudeDeg pos.getLongitudeDeg
    let alt := (getGroundElevationM self.toFGAIBase posReq alt).2
    { ret := alt, self := self, pos := pos, probed := [posReq] }

/-- The object after a sequence of `updatePosition` calls, given as the argument
tuples (position, orientation, groundspeed, initPos) in call order. -/
def updatePositions (self : FGAISwiftAircraft) :
    List (SGGeod × SGVec3 × Double × Bool) → FGAISwiftAircraft
  | [] => self
  | c :: cs => updatePositions (self.updatePosition c.1 c.2.1 c.2.2.1 c.2.2.2) cs

/-- The values returned by a sequence of `getGroundElevation` calls on the points
`pts`, each call made on the object the previous call left. -/
def groundElevations (probe : ElevationProbe) (self : FGAISwiftAircraft) :
    List SGGeod → List Double
  | [] => []
  | p :: ps =>
    let c := getGroundElevation probe self p
    c.ret :: groundElevations probe c.self ps

end FGAISwiftAircraft

/-! ## Sample data -/

/-- A base object with empty strings and all pose fields zero. -/
def sampleBase : FGAIBase :=
  { model_path := [], callsign := [], _searchOrder := ModelSearchOrder.DATA_ONLY,
    latitude := Double.ofNat 0, longitude := Double.ofNat 0, altitude := Double.ofNat 0,
    pitch := Double.ofNat 0, bank := Double.ofNat 0, heading := Double.ofNat 0,
    speed := Double.ofNat 0 }

/-- A scenery stub that reports `m` metres at latitude `lat`, longitude `lon` and finds
no terrain elsewhere, leaving `elev` as it was. -/
def stubProbe (lat lon m : Double) : ElevationProbe := fun _ req elev =>
  if req.getLatitudeDeg = lat ∧ req.getLongitudeDeg = lon then (true, m) else (false, elev)

/-! ## Derived objects used in the statements -/

/-- The object the constructor builds when the marker is found at position `i`. -/
def constructed (base : FGAIBase) (callsign modelString : CppString) (i : Nat) :
    FGAISwiftAircraft :=
  { toFGAIBase :=
      { base with
        model_path := base.model_path ++ modelString.drop i
        callsign := callsign
        _searchOrder := ModelSearchOrder.PREFER_AI }
    m_initPos := m_initPos_initial }

/-- The request point `posReq` that `getGroundElevation` builds from `pos`. -/
def requestPoint (pos : SGGeod) : SGGeod :=
  { latitudeDeg := pos.getLatitudeDeg, longitudeDeg := pos.getLongitudeDeg,
    elevationFt := Double.ofNat 30000 }

/-! ## Scenario data -/

/-- The callsign of the scenario. -/
def sampleCallsign : CppString := "SWIFT01".toList

/-- The model string of the scenario. -/
def sampleModelString : CppString := ".../Models/Aircraft/x/model.xml".toList

/-- A model string that holds the marker twice. -/
def twiceModelString : CppString := "fgdata/Aircraft/swift/Aircraft/x/model.xml".toList

/-- A model string without the marker. -/
def noMarkerModelString : CppString := "Models/aircraft/x/model.xml".toList

/-- The position of the scenario: latitude 47, longitude 8, elevation 2000 ft. -/
def samplePosition : SGGeod :=
  { latitudeDeg := Double.ofNat 47, longitudeDeg := Double.ofNat 8,
    elevationFt := Double.ofNat 2000 }

/-- The orientation of the scenario: pitch 1, bank 2, heading 180. -/
def sampleOrientation : SGVec3 :=
  { x := Double.ofNat 1, y := Double.ofNat 2, z := Double.ofNat 180 }

/-- The object of the scenario, as constructed. -/
def sampleAircraft : FGAISwiftAircraft :=
  constructed sampleBase sampleCallsign sampleModelString 10

/-- The scenery stub of the scenario: 500 m at latitude 47, longitude 8. -/
def sampleProbe : ElevationProbe :=
  stubProbe (Double.ofNat 47) (Double.ofNat 8) (Double.ofNat 500)

/-! ## The literals -/

/-- The literal 30000 as a double is the pattern 0x40DD4C0000000000, that is
(1 + 0xD4C / 0x1000) * 2 ^ 14. -/
theorem ofNat_30000_bits : Double.ofNat 30000 = ⟨0x40DD4C0000000000⟩ := by decide

/-- The value 500 as a double is the pattern 0x407F400000000000. -/
theorem ofNat_500_bits : Double.ofNat 500 = ⟨0x407F400000000000⟩ := by decide

/-- The value 1 as a double is the pattern 0x3FF0000000000000. -/
theorem ofNat_1_bits : Double.ofNat 1 = ⟨0x3FF0000000000000⟩ := by decide

/-- The literals of `getGroundElevation` are numbers, not NaN. -/
theorem literals_not_NaN :
    (Double.ofNat 0).isNaN = false ∧ (Double.ofNat 30000).isNaN = false := by decide

/-! ## Facts about `find` and `substr` -/

theorem find_nil_left (str : CppString) :
    find [] str = if str.isPrefixOf [] then some 0 else none := by
  rw [find]; rfl

theorem find_cons (c : Char) (t str : CppString) :
    find (c :: t) str
      = if str.isPrefixOf (c :: t) then some 0 else (find t str).map (· + 1) := by
  rw [find]

/-- At the position `find` returns, the searched string occurs. -/
theorem find_some_occurs (str : CppString) :
    ∀ (s : CppString) (i : Nat), find s str = some i → str <+: s.drop i := by
  intro s
  induction s with
  | nil =>
    intro i h
    rw [find_nil_left] at h
    split at h
    · rename_i hp
      cases h
      exact List.isPrefixOf_iff_prefix.mp hp
    · cases h
  | cons c t ih =>
    intro i h
    rw [find_cons] at h
    split at h
    · rename_i hp
      cases h
      exact List.isPrefixOf_iff_prefix.mp hp
    · cases hf : find t str with
      | none => rw [hf] at h; cases h
      | some j =>
        rw [hf] at h
        simp only [Option.map_some', Option.some.injEq] at h
        subst h
        exact ih j hf

/-- No occurrence starts before the position `find` returns. -/
theorem find_some_least (str : CppString) :
    ∀ (s : CppString) (i : Nat), find s str = some i →
      ∀ j, j < i → ¬ str <+: s.drop j := by
  intro s
  induction s with
  | nil =>
    intro i h j hj
    rw [find_nil_left] at h
    split at h
    · cases h; omega
    · cases h
  | cons c t ih =>
    intro i h j hj
    rw [find_cons] at h
    split at h
    · cases h; omega
    · rename_i hp
      cases hf : find t str with
      | none => rw [hf] at h; cases h
      | some k =>
        rw [hf] at h
        simp only [Option.map_some', Option.some.injEq] at h
        subst h
        cases j with
        | zero =>
          intro hpre
          exact hp (List.isPrefixOf_iff_prefix.mpr hpre)
        | succ j => exact ih k hf j (by omega)

/-- The position `find` returns lies within the string. -/
theorem find_some_le (str : CppString) :
    ∀ (s : CppString) (i : Nat), find s str = some i → i ≤ s.length := by
  intro s
  induction s with
  | nil =>
    intro i h
    rw [find_nil_left] at h
    split at h
    · cases h; exact Nat.le_refl 0
    · cases h
  | cons c t ih =>
    intro i h
    rw [find_cons] at h
    split at h
    · cases h; exact Nat.zero_le _
    · cases hf : find t str with
      | none => rw [hf] at h; cases h
      | some k =>
        rw [hf] at h
        simp only [Option.map_some', Option.some.injEq] at h
        subst h
        exact Nat.succ_le_succ (ih k hf)

/-- When the searched string occurs at some position, `find` returns a position. -/
theorem find_isSome_of_occurs (str : CppString) :
    ∀ (s : CppString) (j : Nat), str <+: s.drop j → ∃ i, find s str = some i := by
  intro s
  induction s with
  | nil =>
    intro j h
    rw [List.drop_nil] at h
    refine ⟨0, ?_⟩
    rw [find_nil_left, if_pos (List.isPrefixOf_iff_prefix.mpr h)]
  | cons c t ih =>
    intro j h
    rw [find_cons]
    by_cases hp : str.isPrefixOf (c :: t) = true
    · exact ⟨0, by rw [if_pos hp]⟩
    · rw [if_neg hp]
      cases j with
      | zero => exact absurd (List.isPrefixOf_iff_prefix.mpr h) hp
      | succ j =>
        obtain ⟨i, hi⟩ := ih j h
        exact ⟨i + 1, by rw [hi]; rfl⟩

/-- An occurrence anywhere in the string is an occurrence at some position. -/
theorem occurs_of_contains {str s : CppString} (h : str <:+: s) :
    ∃ j, str <+: s.drop j := by
  obtain ⟨pre, post, hs⟩ := h
  refine ⟨pre.length, post, ?_⟩
  rw [← hs, List.append_assoc, List.drop_left]

/-- An occurrence at some position is an occurrence in the string. -/
theorem infix_of_occurs {str s : CppString} {j : Nat} (h : str <+: s.drop j) :
    str <:+: s :=
  List.IsInfix.trans h.isInfix (List.drop_suffix j s).isInfix

/-- The constructor's string expression on a string that holds the marker: the cut is
at some position `i` where the marker occurs and before which it does not. -/
theorem substr_find_of_present (str s : CppString) (h : str <:+: s) :
    ∃ i, find s str = some i ∧ substr s (find s str) = Except.ok (s.drop i)
      ∧ str <+: s.drop i ∧ ∀ j, j < i → ¬ str <+: s.drop j := by
  obtain ⟨j, hj⟩ := occurs_of_contains h
  obtain ⟨i, hi⟩ := find_isSome_of_occurs str s j hj
  refine ⟨i, hi, ?_, find_some_occurs str s i hi, find_some_least str s i hi⟩
  rw [hi]
  show (if i > s.length then _ else _) = _
  rw [if_neg (Nat.not_lt.mpr (find_some_le str s i hi))]

/-- The constructor's string expression on a string without the marker: `find` gives
`npos` and `substr` throws. -/
theorem substr_find_of_absent (str s : CppString) (h : ¬ str <:+: s) :
    find s str = npos ∧ substr s (find s str) = Except.error CppException.out_of_range := by
  have hn : find s str = none := by
    cases hf : find s str with
    | none => rfl
    | some i => exact absurd (infix_of_occurs (find_some_occurs str s i hf)) h
  exact ⟨hn, by rw [hn]; rfl⟩

/-! ## Facts about the constructor -/

theorem ctor_of_find_some (base : FGAIBase) (callsign modelString : CppString) (i : Nat)
    (h : find modelString marker = some i) :
    FGAISwiftAircraft.ctor base callsign modelString
      = Except.ok (constructed base callsign modelString i) := by
  have hs : substr modelString (find modelString marker) = Except.ok (modelString.drop i) := by
    rw [h]
    show (if i > modelString.length then _ else _) = _
    rw [if_neg (Nat.not_lt.mpr (find_some_le marker modelString i h))]
  unfold FGAISwiftAircraft.ctor
  rw [hs]
  rfl

theorem ctor_of_absent (base : FGAIBase) (callsign modelString : CppString)
    (h : ¬ marker <:+: modelString) :
    FGAISwiftAircraft.ctor base callsign modelString
      = Except.error CppException.out_of_range := by
  unfold FGAISwiftAircraft.ctor
  rw [(substr_find_of_absent marker modelString h).2]

theorem ctor_of_present (base : FGAIBase) (callsign modelString : CppString)
    (h : marker <:+: modelString) :
    ∃ i, i ≤ modelString.length ∧ marker <+: modelString.drop i
      ∧ (∀ j, j < i → ¬ marker <+: modelString.drop j)
      ∧ FGAISwiftAircraft.ctor base callsign modelString
          = Except.ok (constructed base callsign modelString i) := by
  obtain ⟨i, hi, _, hocc, hleast⟩ := substr_find_of_present marker modelString h
  exact ⟨i, find_some_le marker modelString i hi, hocc, hleast,
    ctor_of_find_some base callsign modelString i hi⟩

theorem drop_length_append (pre rest : CppString) :
    (pre ++ rest).drop pre.length = rest :=
  List.drop_left pre rest

theorem marker_length : marker.length = 10 := by decide

/-! ## The claims about the constructor -/

/-- C1: for every callsign and every model string that holds the marker "/Aircraft/",
when the base class starts with an empty model path the constructor succeeds and leaves
`model_path` equal to the part of the model string that starts at the (first) marker
and runs to the end of the string. -/
theorem C1_model_path_from_marker (base : FGAIBase) (callsign modelString : CppString)
    (hbase : base.model_path = []) (hmarker : marker <:+: modelString) :
    ∃ (e : FGAISwiftAircraft) (pre post : CppString),
      FGAISwiftAircraft.ctor base callsign modelString = Except.ok e
      ∧ modelString = pre ++ marker ++ post
      ∧ (∀ pre2 post2, modelString = pre2 ++ marker ++ post2 → pre.length ≤ pre2.length)
      ∧ e.model_path = marker ++ post := by
  obtain ⟨i, hle, ⟨post, hpost⟩, hleast, hc⟩ := ctor_of_present base callsign modelString hmarker
  refine ⟨constructed base callsign modelString i, modelString.take i, post, hc, ?_, ?_, ?_⟩
  · rw [List.append_assoc, hpost, List.take_append_drop]
  · intro pre2 post2 h2
    by_contra hlt
    have hlen : (modelString.take i).length = i := by
      rw [List.length_take]; exact Nat.min_eq_left hle
    have hj : pre2.length < i := by omega
    apply hleast pre2.length hj
    refine ⟨post2, ?_⟩
    rw [h2, List.append_assoc, drop_length_append]
  · show base.model_path ++ modelString.drop i = marker ++ post
    rw [hbase, hpost, List.nil_append]

/-- C1 at the scenario of the spec: the path ".../Models/Aircraft/x/model.xml" gives
the model path "/Aircraft/x/model.xml". -/
theorem C1_model_path_from_marker_witness :
    sampleBase.model_path = [] ∧ marker <:+: sampleModelString
    ∧ ∃ e, FGAISwiftAircraft.ctor sampleBase sampleCallsign sampleModelString = Except.ok e
        ∧ e.model_path = "/Aircraft/x/model.xml".toList := by
  have hm : marker <:+: sampleModelString :=
    ⟨".../Models".toList, "x/model.xml".toList, by decide⟩
  refine ⟨rfl, hm, ?_⟩
  obtain ⟨e, pre, post, hc, -, -, -⟩ :=
    C1_model_path_from_marker sampleBase sampleCallsign sampleModelString rfl hm
  refine ⟨e, hc, ?_⟩
  have hv : FGAISwiftAircraft.ctor sampleBase sampleCallsign sampleModelString
      = Except.ok (constructed sampleBase sampleCallsign sampleModelString 10) := by decide
  rw [hv] at hc
  cases hc
  decide

/-- C5, as amended: for every model string that does not hold the marker, `find`
returns `npos`, `substr` throws `std::out_of_range`, and the constructor ends with that
exception: no object, and so no model path, is constructed. -/
theorem C5_no_marker_throws (base : FGAIBase) (callsign modelString : CppString)
    (hmarker : ¬ marker <:+: modelString) :
    find modelString marker = npos
    ∧ FGAISwiftAircraft.ctor base callsign modelString
        = Except.error CppException.out_of_range
    ∧ ¬ ∃ e, FGAISwiftAircraft.ctor base callsign modelString = Except.ok e := by
  have hc := ctor_of_absent base callsign modelString hmarker
  refine ⟨(substr_find_of_absent marker modelString hmarker).1, hc, ?_⟩
  rintro ⟨e, he⟩
  rw [hc] at he
  cases he

theorem noMarker_absent : ¬ marker <:+: noMarkerModelString := by
  intro h
  obtain ⟨j, hj⟩ := occurs_of_contains h
  obtain ⟨i, hi⟩ := find_isSome_of_occurs marker noMarkerModelString j hj
  have hn : find noMarkerModelString marker = none := by decide
  rw [hn] at hi
  cases hi

/-- C5 as amended, at a model string without the marker. -/
theorem C5_no_marker_throws_witness :
    ¬ marker <:+: noMarkerModelString
    ∧ FGAISwiftAircraft.ctor sampleBase sampleCallsign noMarkerModelString
        = Except.error CppException.out_of_range :=
  ⟨noMarker_absent,
    (C5_no_marker_throws sampleBase sampleCallsign noMarkerModelString noMarker_absent).2.1⟩

/-- C5 as stated fails: on the model string "Models/aircraft/x/model.xml", which does
not hold the marker, the constructor does not return an object with an empty model
path; it ends with the exception `std::out_of_range`. -/
theorem C5_silent_empty_path_counterexample :
    ¬ marker <:+: noMarkerModelString
    ∧ FGAISwiftAircraft.ctor sampleBase sampleCallsign noMarkerModelString
        = Except.error CppException.out_of_range
    ∧ ¬ ∃ e, FGAISwiftAircraft.ctor sampleBase sampleCallsign noMarkerModelString
          = Except.ok e ∧ e.model_path = [] := by
  refine ⟨noMarker_absent, by decide, ?_⟩
  rintro ⟨e, he, -⟩
  have hv : FGAISwiftAircraft.ctor sampleBase sampleCallsign noMarkerModelString
      = Except.error CppException.out_of_range := by decide
  rw [hv] at he
  cases he

/-- C6: for every callsign and every model string that holds the marker, the
constructor succeeds and the constructed object has the callsign argument as its
callsign and `PREFER_AI` as its model search order. -/
theorem C6_callsign_and_search_order (base : FGAIBase) (callsign modelString : CppString)
    (hmarker : marker <:+: modelString) :
    ∃ e, FGAISwiftAircraft.ctor base callsign modelString = Except.ok e
      ∧ e.callsign = callsign ∧ e._searchOrder = ModelSearchOrder.PREFER_AI := by
  obtain ⟨i, -, -, -, hc⟩ := ctor_of_present base callsign modelString hmarker
  exact ⟨constructed base callsign modelString i, hc, rfl, rfl⟩

/-- C6 at the scenario of the spec: the callsign is "SWIFT01", and the search order,
`DATA_ONLY` in the base object, is `PREFER_AI` after construction. -/
theorem C6_callsign_and_search_order_witness :
    marker <:+: sampleModelString
    ∧ sampleBase._searchOrder = ModelSearchOrder.DATA_ONLY
    ∧ ∃ e, FGAISwiftAircraft.ctor sampleBase sampleCallsign sampleModelString = Except.ok e
        ∧ e.callsign = "SWIFT01".toList ∧ e._searchOrder = ModelSearchOrder.PREFER_AI :=
  have hm : marker <:+: sampleModelString :=
    ⟨".../Models".toList, "x/model.xml".toList, by decide⟩
  ⟨hm, rfl, C6_callsign_and_search_order sampleBase sampleCallsign sampleModelString hm⟩

/-- C10: when the model string holds the marker (once or several times) and the base
class starts with an empty model path, the constructor cuts at the leftmost occurrence:
the model path starts with the marker, is a suffix of the model string, is at least as
long as every suffix of the model string that starts with the marker, and the prefix
that is cut off holds no occurrence of the marker. -/
theorem C10_cut_at_leftmost_marker (base : FGAIBase) (callsign modelString : CppString)
    (hbase : base.model_path = []) (hmarker : marker <:+: modelString) :
    ∃ e, FGAISwiftAircraft.ctor base callsign modelString = Except.ok e
      ∧ marker <+: e.model_path
      ∧ e.model_path <:+ modelString
      ∧ (∀ t, t <:+ modelString → marker <+: t → t.length ≤ e.model_path.length)
      ∧ (∀ pre, modelString = pre ++ e.model_path → ¬ marker <:+: pre) := by
  obtain ⟨i, hle, hocc, hleast, hc⟩ := ctor_of_present base callsign modelString hmarker
  have hpath : (constructed base callsign modelString i).model_path = modelString.drop i := by
    show base.model_path ++ modelString.drop i = modelString.drop i
    rw [hbase, List.nil_append]
  refine ⟨constructed base callsign modelString i, hc, ?_, ?_, ?_, ?_⟩
  · rw [hpath]; exact hocc
  · rw [hpath]; exact List.drop_suffix i modelString
  · intro t ht hmt
    rw [hpath, List.length_drop]
    by_contra hlt
    obtain ⟨pre, hpre⟩ := ht
    have hlen : pre.length + t.length = modelString.length := by
      rw [← hpre, List.length_append]
    apply hleast pre.length (by omega)
    rw [← hpre, drop_length_append]
    exact hmt
  · intro pre hpre hin
    rw [hpath] at hpre
    obtain ⟨a, b, hab⟩ := hin
    have hlen : pre.length + (modelString.length - i) = modelString.length := by
      have := congrArg List.length hpre
      rw [List.length_append, List.length_drop] at this
      exact this.symm
    have hpl : a.length + marker.length + b.length = pre.length := by
      rw [← hab, List.length_append, List.length_append]
    have hml := marker_length
    apply hleast a.length (by omega)
    refine ⟨b ++ modelString.drop i, ?_⟩
    have hs : modelString = a ++ (marker ++ (b ++ modelString.drop i)) := by
      calc modelString = pre ++ modelString.drop i := hpre
        _ = (a ++ marker ++ b) ++ modelString.drop i := by rw [hab]
        _ = a ++ (marker ++ (b ++ modelString.drop i)) := by
          rw [List.append_assoc, List.append_assoc]
    calc marker ++ (b ++ modelString.drop i)
        = (a ++ (marker ++ (b ++ modelString.drop i))).drop a.length :=
          (drop_length_append a _).symm
      _ = modelString.drop a.length := by rw [← hs]

/-- C10 at a model string that holds the marker twice: the cut is at the first one. -/
theorem C10_cut_at_leftmost_marker_witness :
    sampleBase.model_path = [] ∧ marker <:+: twiceModelString
    ∧ ∃ e, FGAISwiftAircraft.ctor sampleBase sampleCallsign twiceModelString = Except.ok e
        ∧ e.model_path = "/Aircraft/swift/Aircraft/x/model.xml".toList
        ∧ marker <+: e.model_path
        ∧ (∀ pre, twiceModelString = pre ++ e.model_path → ¬ marker <:+: pre) := by
  have hm : marker <:+: twiceModelString :=
    ⟨"fgdata".toList, "swift/Aircraft/x/model.xml".toList, by decide⟩
  refine ⟨rfl, hm, ?_⟩
  obtain ⟨e, hc, hpre, -, -, hcut⟩ :=
    C10_cut_at_leftmost_marker sampleBase sampleCallsign twiceModelString rfl hm
  refine ⟨e, hc, ?_, hpre, hcut⟩
  have hv : FGAISwiftAircraft.ctor sampleBase sampleCallsign twiceModelString
      = Except.ok (constructed sampleBase sampleCallsign twiceModelString 6) := by decide
  rw [hv] at hc
  cases hc
  decide

/-! ## Facts about the pose update and the elevation query -/

theorem ctor_ok_m_initPos (base : FGAIBase) (callsign modelString : CppString)
    (e : FGAISwiftAircraft)
    (h : FGAISwiftAircraft.ctor base callsign modelString = Except.ok e) :
    e.m_initPos = m_initPos_initial := by
  cases hf : find modelString marker with
  | none =>
    have hs : substr modelString (find modelString marker)
        = Except.error CppException.out_of_range := by rw [hf]; rfl
    unfold FGAISwiftAircraft.ctor at h
    rw [hs] at h
    cases h
  | some i =>
    rw [ctor_of_find_some base callsign modelString i hf] at h
    cases h
    rfl

theorem getGroundElevation_not_init (probe : ElevationProbe) (e : FGAISwiftAircraft)
    (pos : SGGeod) (h : e.m_initPos = false) :
    FGAISwiftAircraft.getGroundElevation probe e pos
      = { ret := quiet_NaN, self := e, pos := pos, probed := [] } := by
  unfold FGAISwiftAircraft.getGroundElevation
  rw [h]
  rfl

theorem getGroundElevation_init (probe : ElevationProbe) (e : FGAISwiftAircraft)
    (pos : SGGeod) (h : e.m_initPos = true) :
    FGAISwiftAircraft.getGroundElevation probe e pos
      = { ret := (probe e.toFGAIBase (requestPoint pos) (Double.ofNat 0)).2, self := e,
          pos := pos, probed := [requestPoint pos] } := by
  unfold FGAISwiftAircraft.getGroundElevation
  rw [h]
  rfl

theorem updatePositions_concat (cs : List (SGGeod × SGVec3 × Double × Bool)) :
    ∀ (e : FGAISwiftAircraft) (c : SGGeod × SGVec3 × Double × Bool),
      e.updatePositions (cs ++ [c])
        = (e.updatePositions cs).updatePosition c.1 c.2.1 c.2.2.1 c.2.2.2 := by
  induction cs with
  | nil => intro e c; rfl
  | cons d ds ih => intro e c; exact ih _ c

theorem updatePositions_concat_m_initPos (cs : List (SGGeod × SGVec3 × Double × Bool))
    (e : FGAISwiftAircraft) (c : SGGeod × SGVec3 × Double × Bool) :
    (e.updatePositions (cs ++ [c])).m_initPos = c.2.2.2 := by
  rw [updatePositions_concat]
  rfl

theorem quiet_NaN_isNaN : quiet_NaN.isNaN = true := by decide

theorem groundElevations_init (probe : ElevationProbe) (e : FGAISwiftAircraft)
    (h : e.m_initPos = true) :
    ∀ pts : List SGGeod,
      FGAISwiftAircraft.groundElevations probe e pts
        = pts.map (fun p => (probe e.toFGAIBase (requestPoint p) (Double.ofNat 0)).2) := by
  intro pts
  induction pts with
  | nil => rfl
  | cons p ps ih =>
    show (FGAISwiftAircraft.getGroundElevation probe e p).ret
        :: FGAISwiftAircraft.groundElevations probe
            (FGAISwiftAircraft.getGroundElevation probe e p).self ps = _
    rw [getGroundElevation_init probe e p h, List.map_cons]
    exact congrArg _ ih

/-! ## The claims about the pose update and the elevation query -/

/-- C2: on an object that the constructor has just built and on which `updatePosition`
has not been called, `getGroundElevation` returns the quiet NaN for every input point
and every scenery, and makes no request to the scenery probe. -/
theorem C2_fresh_object_returns_NaN (base : FGAIBase) (callsign modelString : CppString)
    (e : FGAISwiftAircraft) (probe : ElevationProbe) (pos : SGGeod)
    (hctor : FGAISwiftAircraft.ctor base callsign modelString = Except.ok e) :
    (FGAISwiftAircraft.getGroundElevation probe e pos).ret = quiet_NaN
    ∧ (FGAISwiftAircraft.getGroundElevation probe e pos).ret.isNaN = true
    ∧ (FGAISwiftAircraft.getGroundElevation probe e pos).probed = [] := by
  have hinit : e.m_initPos = false := ctor_ok_m_initPos base callsign modelString e hctor
  rw [getGroundElevation_not_init probe e pos hinit]
  exact ⟨rfl, quiet_NaN_isNaN, rfl⟩

/-- C2 at the scenario of the spec: the freshly constructed "SWIFT01" answers NaN even
where the scenery stub has terrain at 500 m. -/
theorem C2_fresh_object_returns_NaN_witness :
    FGAISwiftAircraft.ctor sampleBase sampleCallsign sampleModelString
      = Except.ok sampleAircraft
    ∧ (sampleProbe sampleAircraft.toFGAIBase (requestPoint samplePosition) (Double.ofNat 0)).2
        = Double.ofNat 500
    ∧ (FGAISwiftAircraft.getGroundElevation sampleProbe sampleAircraft samplePosition).ret
        = quiet_NaN
    ∧ (FGAISwiftAircraft.getGroundElevation sampleProbe sampleAircraft samplePosition).probed
        = [] :=
  have hc : FGAISwiftAircraft.ctor sampleBase sampleCallsign sampleModelString
      = Except.ok sampleAircraft := by decide
  have h := C2_fresh_object_returns_NaN sampleBase sampleCallsign sampleModelString
    sampleAircraft sampleProbe samplePosition hc
  ⟨hc, by decide, h.1, h.2.2⟩

/-- C3: for every object, position, orientation, groundspeed and `initPos`, after one
call of `updatePosition` the stored latitude, longitude, altitude, pitch, bank, heading
and speed are the position's latitude in degrees, longitude in degrees and elevation in
feet, the orientation's x, y and z, and the groundspeed, whatever these values are. -/
theorem C3_updatePosition_transfers_fields (e : FGAISwiftAircraft) (position : SGGeod)
    (orientation : SGVec3) (groundspeed : Double) (initPos : Bool) :
    (e.updatePosition position orientation groundspeed initPos).latitude
        = position.getLatitudeDeg
    ∧ (e.updatePosition position orientation groundspeed initPos).longitude
        = position.getLongitudeDeg
    ∧ (e.updatePosition position orientation groundspeed initPos).altitude
        = position.getElevationFt
    ∧ (e.updatePosition position orientation groundspeed initPos).pitch = orientation.x
    ∧ (e.updatePosition position orientation groundspeed initPos).bank = orientation.y
    ∧ (e.updatePosition position orientation groundspeed initPos).heading = orientation.z
    ∧ (e.updatePosition position orientation groundspeed initPos).speed = groundspeed :=
  ⟨rfl, rfl, rfl, rfl, rfl, rfl, rfl⟩

/-- C4: when the flag `m_initPos` is set, `getGroundElevation(pos)` makes one request
to the scenery probe, for the point with the latitude and longitude of `pos` and an
elevation of 30000 ft, with `alt` holding 0, and returns the value the probe leaves in
`alt`; so two points with the same latitude and longitude give the same result
whatever their elevations. -/
theorem C4_elevation_is_probe_at_30000ft (probe : ElevationProbe) (e : FGAISwiftAircraft)
    (pos : SGGeod) (hinit : e.m_initPos = true) :
    (FGAISwiftAircraft.getGroundElevation probe e pos).ret
        = (probe e.toFGAIBase
            { latitudeDeg := pos.getLatitudeDeg, longitudeDeg := pos.getLongitudeDeg,
              elevationFt := Double.ofNat 30000 } (Double.ofNat 0)).2
    ∧ (FGAISwiftAircraft.getGroundElevation probe e pos).probed
        = [{ latitudeDeg := pos.getLatitudeDeg, longitudeDeg := pos.getLongitudeDeg,
             elevationFt := Double.ofNat 30000 }]
    ∧ ∀ pos2 : SGGeod, pos2.getLatitudeDeg = pos.getLatitudeDeg →
        pos2.getLongitudeDeg = pos.getLongitudeDeg →
        (FGAISwiftAircraft.getGroundElevation probe e pos2).ret
          = (FGAISwiftAircraft.getGroundElevation probe e pos).ret := by
  refine ⟨?_, ?_, ?_⟩
  · rw [getGroundElevation_init probe e pos hinit]; rfl
  · rw [getGroundElevation_init probe e pos hinit]; rfl
  · intro pos2 hlat hlon
    rw [getGroundElevation_init probe e pos hinit, getGroundElevation_init probe e pos2 hinit]
    show (probe e.toFGAIBase (requestPoint pos2) (Double.ofNat 0)).2
      = (probe e.toFGAIBase (requestPoint pos) (Double.ofNat 0)).2
    unfold requestPoint
    rw [hlat, hlon]

/-- C4 at the scenario of the spec: after the pose update with `initPos = true`, a stub
with 500 m at (47, 8) makes the query at (47, 8, 2000 ft) return 500, and the same at
(47, 8, 0 ft). -/
theorem C4_elevation_is_probe_at_30000ft_witness :
    (sampleAircraft.updatePosition samplePosition sampleOrientation (Double.ofNat 120)
        true).m_initPos = true
    ∧ (FGAISwiftAircraft.getGroundElevation sampleProbe
        (sampleAircraft.updatePosition samplePosition sampleOrientation (Double.ofNat 120) true)
        samplePosition).ret = Double.ofNat 500
    ∧ (FGAISwiftAircraft.getGroundElevation sampleProbe
        (sampleAircraft.updatePosition samplePosition sampleOrientation (Double.ofNat 120) true)
        { samplePosition with elevationFt := Double.ofNat 0 }).ret = Double.ofNat 500 := by
  have h := C4_elevation_is_probe_at_30000ft sampleProbe
    (sampleAircraft.updatePosition samplePosition sampleOrientation (Double.ofNat 120) true)
    samplePosition rfl
  refine ⟨rfl, ?_, ?_⟩
  · rw [h.1]; decide
  · rw [h.2.2 { samplePosition with elevationFt := Double.ofNat 0 } rfl rfl, h.1]; decide

/-- C7 as stated fails: after one `updatePosition` call that passes `initPos = false`,
`getGroundElevation` makes no request to the scenery and returns the quiet NaN, although
the scenery stub has 500 m at the point asked for. -/
theorem C7_latch_counterexample :
    (FGAISwiftAircraft.getGroundElevation sampleProbe
        (sampleAircraft.updatePosition samplePosition sampleOrientation (Double.ofNat 120) false)
        samplePosition).ret = quiet_NaN
    ∧ (FGAISwiftAircraft.getGroundElevation sampleProbe
        (sampleAircraft.updatePosition samplePosition sampleOrientation (Double.ofNat 120) false)
        samplePosition).probed = []
    ∧ (FGAISwiftAircraft.getGroundElevation sampleProbe
        (sampleAircraft.updatePosition samplePosition sampleOrientation (Double.ofNat 120) false)
        samplePosition).ret
      ≠ (sampleProbe
          (sampleAircraft.updatePosition samplePosition sampleOrientation (Double.ofNat 120)
            false).toFGAIBase
          (requestPoint samplePosition) (Double.ofNat 0)).2 := by
  decide

/-- C7, as amended: once the most recent `updatePosition` call has passed
`initPos = true` (after any earlier calls, with any other arguments), every following
`getGroundElevation` call, on any points and in any number, makes its request to the
scenery probe and returns the probe's result. -/
theorem C7_probe_after_update_with_true (e : FGAISwiftAircraft)
    (cs : List (SGGeod × SGVec3 × Double × Bool)) (position : SGGeod) (orientation : SGVec3)
    (groundspeed : Double) (probe : ElevationProbe) :
    (e.updatePositions (cs ++ [(position, orientation, groundspeed, true)])).m_initPos = true
    ∧ (∀ pos : SGGeod,
        (FGAISwiftAircraft.getGroundElevation probe
            (e.updatePositions (cs ++ [(position, orientation, groundspeed, true)])) pos).probed
          = [requestPoint pos])
    ∧ ∀ pts : List SGGeod,
        FGAISwiftAircraft.groundElevations probe
            (e.updatePositions (cs ++ [(position, orientation, groundspeed, true)])) pts
          = pts.map (fun p =>
              (probe (e.updatePositions
                  (cs ++ [(position, orientation, groundspeed, true)])).toFGAIBase
                (requestPoint p) (Double.ofNat 0)).2) := by
  have hinit := updatePositions_concat_m_initPos cs e (position, orientation, groundspeed, true)
  refine ⟨hinit, ?_, groundElevations_init probe _ hinit⟩
  intro pos
  rw [getGroundElevation_init probe _ pos hinit]

/-- C9: `getGroundElevation` changes neither the object nor its argument: for every
object state, scenery and input point, in the NaN branch and in the probe branch, the
object after the call is the object before it, field by field, and the input point is
the point passed in. -/
theorem C9_getGroundElevation_is_pure (probe : ElevationProbe) (e : FGAISwiftAircraft)
    (pos : SGGeod) :
    (FGAISwiftAircraft.getGroundElevation probe e pos).self = e
    ∧ (FGAISwiftAircraft.getGroundElevation probe e pos).pos = pos
    ∧ (FGAISwiftAircraft.getGroundElevation probe e pos).self.m_initPos = e.m_initPos
    ∧ (FGAISwiftAircraft.getGroundElevation probe e pos).self.callsign = e.callsign
    ∧ (FGAISwiftAircraft.getGroundElevation probe e pos).self.model_path = e.model_path
    ∧ (FGAISwiftAircraft.getGroundElevation probe e pos).self.latitude = e.latitude
    ∧ (FGAISwiftAircraft.getGroundElevation probe e pos).self.longitude = e.longitude
    ∧ (FGAISwiftAircraft.getGroundElevation probe e pos).self.altitude = e.altitude
    ∧ (FGAISwiftAircraft.getGroundElevation probe e pos).self.pitch = e.pitch
    ∧ (FGAISwiftAircraft.getGroundElevation probe e pos).self.bank = e.bank
    ∧ (FGAISwiftAircraft.getGroundElevation probe e pos).self.heading = e.heading
    ∧ (FGAISwiftAircraft.getGroundElevation probe e pos).self.speed = e.speed := by
  cases hinit : e.m_initPos with
  | false =>
    rw [getGroundElevation_not_init probe e pos hinit]
    exact ⟨rfl, rfl, hinit, rfl, rfl, rfl, rfl, rfl, rfl, rfl, rfl, rfl⟩
  | true =>
    rw [getGroundElevation_init probe e pos hinit]
    exact ⟨rfl, rfl, hinit, rfl, rfl, rfl, rfl, rfl, rfl, rfl, rfl, rfl⟩

end AISwift
